import Mathlib

/-!
Verification development for the logging header `loggo/Loggo.hh`.

Shallow embedding of the logging header `src/loggo/Loggo.hh` and of the usage
example `src/examples/basic.cc`.

Modelling conventions
* A `std::ostream` object is identified by a `StreamId`; a reference or pointer
  to a stream is that id.  The `World` records the text written so far to every
  stream.  Streams are taken in their default formatting state (decimal
  integers, no width or fill) and in a good state, so an insertion appends the
  value's text.
* `char const *` arguments that may be `nullptr` are `Option String`.
* `int` is `Int`; no arithmetic is done on it, it is only compared with `0` and
  printed.
* `LogLevel` is an enumeration over `unsigned`: a value is its ordinal.  The
  theorems are proved for every natural ordinal, which covers every `unsigned`.
-/

namespace loggo

/-! ## Sinks -/

/-- Identity of a `std::ostream` object. -/
abbrev StreamId := Nat

/-- The text written so far to every stream. -/
structure World where
  text : StreamId → String

/-- A world in which nothing has been written to any stream. -/
def World.empty : World := ⟨fun _ => ""⟩

/-- Formatted insertion of text: `o << s` appends `s` to stream `o` only. -/
def World.write (w : World) (o : StreamId) (s : String) : World :=
  ⟨fun i => if i = o then w.text i ++ s else w.text i⟩

/-! ## Levels (`Loggo.hh` lines 23-51) -/

/-- Source: `enum LogLevel : unsigned { Debug, Trace, Info, Warn, Error, Fatal, };` -/
structure LogLevel where
  val : Nat
  deriving DecidableEq, Repr

def Debug : LogLevel := ⟨0⟩
def Trace : LogLevel := ⟨1⟩
def Info : LogLevel := ⟨2⟩
def Warn : LogLevel := ⟨3⟩
def Error : LogLevel := ⟨4⟩
def Fatal : LogLevel := ⟨5⟩

/-- The six enumerators, in declaration order. -/
def severities : List LogLevel := [Debug, Trace, Info, Warn, Error, Fatal]

/-- Source: `return unsigned(min) <= unsigned(cur);` -/
def compareLevels (min cur : LogLevel) : Bool :=
  decide (min.val ≤ cur.val)

/-- Source: `writeLevel(std::ostream &o, LogLevel lvl, bool color)`: the two switches of
the source; the result is the stream reference returned by the last `<<`. -/
def writeLevel (w : World) (o : StreamId) (lvl : LogLevel) (color : Bool) :
    World × StreamId :=
  if color then
    match lvl.val with
    | 0 => (w.write o ("\x1b[30m" ++ "Debug " ++ "\x1b[0m"), o)
    | 1 => (w.write o ("\x1b[30;1m" ++ "Trace " ++ "\x1b[0m"), o)
    | 2 => (w.write o ("\x1b[33m" ++ "Info " ++ "\x1b[0m"), o)
    | 3 => (w.write o ("\x1b[33;1m" ++ "Warn " ++ "\x1b[0m"), o)
    | 4 => (w.write o ("\x1b[31m" ++ "Error " ++ "\x1b[0m"), o)
    | 5 => (w.write o ("\x1b[31;1m" ++ "Fatal " ++ "\x1b[0m"), o)
    | _ => (w.write o "?????", o)
  else
    match lvl.val with
    | 0 => (w.write o "DEBUG", o)
    | 1 => (w.write o "TRACE", o)
    | 2 => (w.write o "INFO ", o)
    | 3 => (w.write o "WARN ", o)
    | 4 => (w.write o "ERROR", o)
    | 5 => (w.write o "FATAL", o)
    | _ => (w.write o "?????", o)

/-! ## Streamed values -/

/-- Source: `struct Custom { int x; int y; };` of `examples/basic.cc`. -/
structure Custom where
  x : Int
  y : Int
  deriving DecidableEq, Repr

/-- Source: `operator<<(std::ostream &o, Custom const &c)` of `examples/basic.cc`:
`return o << "Custom{" << c.x << ", " << c.y << "}";` -/
def Custom.insert (w : World) (o : StreamId) (c : Custom) : World × StreamId :=
  let w := w.write o "Custom\x7b"
  let w := w.write o (toString c.x)
  let w := w.write o ", "
  let w := w.write o (toString c.y)
  let w := w.write o "\x7d"
  (w, o)

/-- The printable values the sources stream into a `StreamOut`: string
literals and C strings, characters, `int`s and the example's `Custom`.  A value
of any other type whose inserter appends a text `t` to the stream behaves as
`str t`. -/
inductive Value where
  | str (s : String)
  | chr (c : Char)
  | int (n : Int)
  | custom (c : Custom)
  deriving DecidableEq, Repr

/-- Source: `ostream << t` for a streamed value `t`. -/
def Value.insert (w : World) (o : StreamId) : Value → World × StreamId
  | .str s => (w.write o s, o)
  | .chr c => (w.write o (String.singleton c), o)
  | .int n => (w.write o (toString n), o)
  | .custom c => c.insert w o

/-! ## `StreamOut` (`Loggo.hh` lines 53-103) -/

/-- Source: `struct StreamOut { std::ostream &ostream_; bool write_; };` -/
structure StreamOut where
  ostream_ : StreamId
  write_ : Bool
  deriving DecidableEq, Repr

/-- The private constructor
`StreamOut(std::ostream &o, bool write, bool color, LogLevel l, char const *file, int line, char const *func)`. -/
def StreamOut.ctor (w : World) (o : StreamId) (write color : Bool) (l : LogLevel)
    (file : Option String) (line : Int) (func : Option String) : World × StreamOut :=
  let w :=
    if write then
      let w := w.write o "["
      let w := (writeLevel w o l color).1
      let w :=
        match file with
        | some f =>
          let w := (w.write o "|").write o f
          if line ≥ 0 then (w.write o ":").write o (toString line) else w
        | none => w
      let w :=
        match func with
        | some fn => ((w.write o "(").write o fn).write o ")"
        | none => w
      w.write o "]: "
    else w
  (w, ⟨o, write⟩)

/-- Source: `StreamOut &operator<<(T &&t)` and `operator<<(T const &t)`: both bodies are
`if (write_) { ostream_ << t; } return *this;`. -/
def StreamOut.shl (w : World) (s : StreamOut) (t : Value) : World × StreamOut :=
  if s.write_ then ((t.insert w s.ostream_).1, s) else (w, s)

/-- Source: `~StreamOut()`: `if (write_) { ostream_ << std::endl; }`. -/
def StreamOut.dtor (w : World) (s : StreamOut) : World :=
  if s.write_ then w.write s.ostream_ "\n" else w

/-! ## `Logger` (`Loggo.hh` lines 105-181) -/

/-- The data members of `class Logger`. -/
structure Logger where
  level_ : LogLevel
  enabled_ : Bool
  colorsEnabled_ : Bool
  out_ : StreamId
  deriving DecidableEq, Repr

/-- Source: `explicit Logger(std::ostream &o, LogLevel level=Warn, bool useColor=false)`. -/
def Logger.ctor (o : StreamId) (level : LogLevel) (useColor : Bool) : Logger :=
  { level_ := level, enabled_ := true, colorsEnabled_ := useColor, out_ := o }

def Logger.getMinLevel (lg : Logger) : LogLevel := lg.level_
def Logger.disableColor (lg : Logger) : Logger := { lg with colorsEnabled_ := false }
def Logger.enableColor (lg : Logger) : Logger := { lg with colorsEnabled_ := true }
def Logger.colorsEnabled (lg : Logger) : Bool := lg.colorsEnabled_
def Logger.setMinLevel (lg : Logger) (to_ : LogLevel) : Logger := { lg with level_ := to_ }
def Logger.isEnabled (lg : Logger) : Bool := lg.enabled_
def Logger.setEnabled (lg : Logger) (v : Bool) : Logger := { lg with enabled_ := v }
def Logger.disable (lg : Logger) : Logger := lg.setEnabled false
def Logger.enable (lg : Logger) : Logger := lg.setEnabled true
def Logger.getStream (lg : Logger) : StreamId := lg.out_

/-- Source: `void setStream(std::ostream &o, bool color = false)`. -/
def Logger.setStream (lg : Logger) (o : StreamId) (color : Bool) : Logger :=
  { lg with out_ := o, colorsEnabled_ := color }

/-- Source: `StreamOut streamFor(LogLevel l, char const *file=nullptr, int line=-1, char const *func=nullptr)`. -/
def Logger.streamFor (w : World) (lg : Logger) (l : LogLevel)
    (file : Option String) (line : Int) (func : Option String) : World × StreamOut :=
  let write := lg.enabled_ && compareLevels lg.level_ l
  StreamOut.ctor w lg.out_ write lg.colorsEnabled_ l file line func

/-! ## Whole log statements -/

/-- The chain `s << v1 << v2 << ...` on a line writer. -/
def streamAll (w : World) (s : StreamOut) : List Value → World × StreamOut
  | [] => (w, s)
  | v :: vs => streamAll (s.shl w v).1 (s.shl w v).2 vs

/-- The statement `StreamOut(o, write, color, l, file, line, func) << v1 << ... ;`:
construction, the streaming calls, and destruction at the end of the
full expression. -/
def writerStatement (w : World) (o : StreamId) (write color : Bool) (l : LogLevel)
    (file : Option String) (line : Int) (func : Option String) (vals : List Value) : World :=
  let c := StreamOut.ctor w o write color l file line func
  let r := streamAll c.1 c.2 vals
  r.2.dtor r.1

/-- The statement `lg.streamFor(l, file, line, func) << v1 << ... ;` as in
`LOGGO_INFO() << "foo " << 3 << ", " << custom;`. -/
def logStatement (w : World) (lg : Logger) (l : LogLevel)
    (file : Option String) (line : Int) (func : Option String) (vals : List Value) : World :=
  let c := lg.streamFor w l file line func
  let r := streamAll c.1 c.2 vals
  r.2.dtor r.1

/-- What a caller can do between obtaining a line writer from a logger and the
end of the statement: stream a value into the writer, or call one of the
logger's `setMinLevel`, `setEnabled`, `enable`, `disable`. -/
inductive Action where
  | stream (v : Value)
  | setMinLevel (to_ : LogLevel)
  | setEnabled (v : Bool)
  | enable
  | disable
  deriving DecidableEq, Repr

/-- One caller action on the sinks, the logger and the live line writer. -/
def Action.run (w : World) (lg : Logger) (s : StreamOut) : Action → World × Logger × StreamOut
  | .stream v => ((s.shl w v).1, lg, (s.shl w v).2)
  | .setMinLevel t => (w, lg.setMinLevel t, s)
  | .setEnabled v => (w, lg.setEnabled v, s)
  | .enable => (w, lg.enable, s)
  | .disable => (w, lg.disable, s)

/-- A sequence of caller actions, left to right. -/
def runActions (w : World) (lg : Logger) (s : StreamOut) : List Action → World × Logger × StreamOut
  | [] => (w, lg, s)
  | a :: as => runActions (a.run w lg s).1 (a.run w lg s).2.1 (a.run w lg s).2.2 as

/-- The value an action streams, if it is a streaming call. -/
def Action.streamed : Action → Option Value
  | .stream v => some v
  | _ => none

/-! ## Observations used to state the properties -/

/-- The text `writeLevel` writes: what it appends to a sink that was empty. -/
def renderLevel (lvl : LogLevel) (color : Bool) : String :=
  (writeLevel World.empty 0 lvl color).1.text 0

/-- The textual representation of a streamed value: what `ostream << t` appends
to a sink that was empty. -/
def Value.render (v : Value) : String :=
  (v.insert World.empty 0).1.text 0

/-- The concatenation of the renderings of the streamed values, in order. -/
def renderAll : List Value → String
  | [] => ""
  | v :: vs => v.render ++ renderAll vs

/-- The file segment of a line head as the specification words it:
`|` + file, followed by `:` + decimal line when the line is non-negative;
nothing when no file is given. -/
def fileSegment (file : Option String) (line : Int) : String :=
  match file with
  | some f => "|" ++ f ++ (if line ≥ 0 then ":" ++ toString line else "")
  | none => ""

/-- The function segment of a line head as the specification words it:
`(` + function + `)`, nothing when no function is given. -/
def funcSegment (func : Option String) : String :=
  match func with
  | some fn => "(" ++ fn ++ ")"
  | none => ""

/-- The line head as the specification words it:
`[` + rendered level + file segment + function segment + `]: `. -/
def headText (color : Bool) (l : LogLevel) (file : Option String) (line : Int)
    (func : Option String) : String :=
  "[" ++ renderLevel l color ++ fileSegment file line ++ funcSegment func ++ "]: "

/-- The ANSI escape byte 0x1B. -/
def ESC : Char := '\x1b'

/-- The SGR reset sequence `ESC [ 0 m`. -/
def resetEscape : String := "\x1b[0m"

/-- An SGR escape sequence: `ESC`, `[`, a non-empty run of digits and `;`, and
the final byte `m`. -/
def isStartEscape (s : String) : Bool :=
  match s.data with
  | e :: b :: rest =>
    e == ESC && b == '[' && rest.getLast? == some 'm' &&
      !rest.dropLast.isEmpty && rest.dropLast.all (fun c => c.isDigit || c == ';')
  | _ => false

/-- Removal of escape sequences from a character list: `true` while inside a
sequence, which runs from `ESC` to its final byte `m`. -/
def stripAnsiAux : Bool → List Char → List Char
  | _, [] => []
  | false, c :: cs => if c = ESC then stripAnsiAux true cs else c :: stripAnsiAux false cs
  | true, c :: cs => if c = 'm' then stripAnsiAux false cs else stripAnsiAux true cs

/-- The text with its ANSI escape sequences removed. -/
def stripAnsi (s : String) : String := ⟨stripAnsiAux false s.data⟩

/-- The text in upper case and without trailing blanks. -/
def foldLabel (s : String) : List Char :=
  ((s.data.map Char.toUpper).reverse.dropWhile (fun c => c == ' ')).reverse

/-! ## The singleton logger (`Loggo.hh` lines 115-121 and 171-174) -/

/-- Address of a `Logger` object; a `Logger &` or `Logger *` is that address. -/
abbrev LoggerAddr := Nat

/-- The stream `std::cerr`. -/
def cerr : StreamId := 2

/-- The address of the function-local static `globalLogger` of `globalLoggerPtr`. -/
def globalAddr : LoggerAddr := 0

/-- The logger objects of the program by address, with the flag that tells
whether the function-local static `globalLogger` has been constructed yet. -/
structure Memory where
  initialized : Bool
  loggers : LoggerAddr → Logger

/-- Assignment `*p = v` to the logger object at address `p`. -/
def Memory.store (m : Memory) (p : LoggerAddr) (v : Logger) : Memory :=
  { initialized := m.initialized, loggers := fun a => if a = p then v else m.loggers a }

/-- A call `p->f(...)` of a member function that updates the object at `p`. -/
def Memory.call (m : Memory) (p : LoggerAddr) (f : Logger → Logger) : Memory :=
  m.store p (f (m.loggers p))

/-- Source: `static Logger *globalLoggerPtr()`:
`static Logger globalLogger{std::cerr, Debug, true}; return &globalLogger;`
the static is constructed by the first call only. -/
def globalLoggerPtr (m : Memory) : Memory × LoggerAddr :=
  if m.initialized then (m, globalAddr)
  else
    ({ initialized := true,
       loggers := fun a => if a = globalAddr then Logger.ctor cerr Debug true else m.loggers a },
     globalAddr)

/-- Source: `static Logger &get() { return *globalLoggerPtr(); }` -/
def Logger.get (m : Memory) : Memory × LoggerAddr :=
  globalLoggerPtr m

/-- Source: `static void setGlobalLogger(Logger &logger) { *globalLoggerPtr() = logger; }`
with the memberwise copy assignment of `Logger`. -/
def Logger.setGlobalLogger (m : Memory) (logger : LoggerAddr) : Memory :=
  let r := globalLoggerPtr m
  r.1.store r.2 (r.1.loggers logger)

/-- Source: `inline Logger &logger() { return Logger::get(); }` -/
def logger (m : Memory) : Memory × LoggerAddr :=
  Logger.get m

/-- Source: `#define LOGGO_LOG(LEVEL) ::loggo::Logger::get().streamFor(LEVEL, LOGGO_FILE, LOGGO_LINE, LOGGO_FUNC)`
used as the statement `LOGGO_LOG(l) << v1 << ... ;` with the three location
macros as arguments. -/
def loggoLog (w : World) (m : Memory) (l : LogLevel) (file : Option String) (line : Int)
    (func : Option String) (vals : List Value) : World × Memory :=
  let r := Logger.get m
  (logStatement w (r.1.loggers r.2) l file line func vals, r.1)

/-- The call `Logger(o)` with the optional arguments omitted: the declaration's
defaults are `level=Warn` and `useColor=false`. -/
def Logger.ctorDefault (o : StreamId) : Logger :=
  Logger.ctor o Warn false

/-- The call `setStream(o)` with the color argument omitted: the declaration's
default is `color = false`. -/
def Logger.setStreamDefault (lg : Logger) (o : StreamId) : Logger :=
  lg.setStream o false

/-- The minimum level the doc comment of `Logger::get` announces for the
singleton: "Warn if NDEBUG is defined, and Debug otherwise". -/
def documentedDefaultLevel (ndebug : Bool) : LogLevel :=
  if ndebug then Warn else Debug

/-- The leading escape sequence of a text: from a first character `ESC` up to
and including the first `m`; empty when the text does not start with `ESC`. -/
def startEscape (s : String) : String :=
  match s.data with
  | c :: cs => if c = ESC then ⟨c :: (cs.takeWhile (fun x => x != 'm') ++ ['m'])⟩ else ""
  | [] => ""

/-! ## Lemmas on sinks and on the pieces of a statement -/

theorem World.write_write (w : World) (o : StreamId) (a b : String) :
    (w.write o a).write o b = w.write o (a ++ b) := by
  simp only [World.write, World.mk.injEq]
  funext i
  by_cases h : i = o <;> simp [h, String.append_assoc]

theorem World.write_empty (w : World) (o : StreamId) : w.write o "" = w := by
  cases w
  simp only [World.write, World.mk.injEq]
  funext i
  by_cases h : i = o <;> simp [h]

theorem writeLevel_eq (w : World) (o : StreamId) (lvl : LogLevel) (color : Bool) :
    writeLevel w o lvl color = (w.write o (renderLevel lvl color), o) := by
  rcases lvl with ⟨n⟩
  cases color <;>
  match n with
  | 0 => rfl
  | 1 => rfl
  | 2 => rfl
  | 3 => rfl
  | 4 => rfl
  | 5 => rfl
  | _ + 6 => rfl

theorem Value.insert_eq (w : World) (o : StreamId) (v : Value) :
    v.insert w o = (w.write o v.render, o) := by
  cases v with
  | str s => simp [Value.insert, Value.render, World.write, World.empty]
  | chr c => simp [Value.insert, Value.render, World.write, World.empty]
  | int n => simp [Value.insert, Value.render, World.write, World.empty]
  | custom c =>
    have h : (Value.custom c).render
        = "Custom\x7b" ++ toString c.x ++ ", " ++ toString c.y ++ "\x7d" := by
      simp [Value.insert, Value.render, Custom.insert, World.write, World.empty,
        String.append_assoc]
    rw [h]
    simp only [Value.insert, Custom.insert, World.write_write]

theorem streamAll_unarmed (w : World) (o : StreamId) (vals : List Value) :
    streamAll w ⟨o, false⟩ vals = (w, ⟨o, false⟩) := by
  induction vals generalizing w with
  | nil => rfl
  | cons v vs ih => simp [streamAll, StreamOut.shl, ih]

theorem streamAll_armed (w : World) (o : StreamId) (vals : List Value) :
    streamAll w ⟨o, true⟩ vals = (w.write o (renderAll vals), ⟨o, true⟩) := by
  induction vals generalizing w with
  | nil => simp [streamAll, renderAll, World.write_empty]
  | cons v vs ih =>
    simp only [streamAll, StreamOut.shl, if_true, Value.insert_eq, ih, World.write_write,
      renderAll]

theorem StreamOut.ctor_unarmed (w : World) (o : StreamId) (color : Bool) (l : LogLevel)
    (file : Option String) (line : Int) (func : Option String) :
    StreamOut.ctor w o false color l file line func = (w, ⟨o, false⟩) := by
  simp [StreamOut.ctor]

theorem StreamOut.ctor_armed (w : World) (o : StreamId) (color : Bool) (l : LogLevel)
    (file : Option String) (line : Int) (func : Option String) :
    StreamOut.ctor w o true color l file line func
      = (w.write o (headText color l file line func), ⟨o, true⟩) := by
  simp only [StreamOut.ctor, if_true, writeLevel_eq, headText, Prod.mk.injEq, and_true]
  cases file <;> cases func <;> by_cases h : line ≥ 0 <;>
    simp [fileSegment, funcSegment, h, World.write_write, String.append_assoc]

theorem writerStatement_unarmed (w : World) (o : StreamId) (color : Bool) (l : LogLevel)
    (file : Option String) (line : Int) (func : Option String) (vals : List Value) :
    writerStatement w o false color l file line func vals = w := by
  simp [writerStatement, StreamOut.ctor_unarmed, streamAll_unarmed, StreamOut.dtor]

theorem writerStatement_armed (w : World) (o : StreamId) (color : Bool) (l : LogLevel)
    (file : Option String) (line : Int) (func : Option String) (vals : List Value) :
    writerStatement w o true color l file line func vals
      = w.write o (headText color l file line func ++ renderAll vals ++ "\n") := by
  simp [writerStatement, StreamOut.ctor_armed, streamAll_armed, StreamOut.dtor,
    World.write_write, String.append_assoc]

theorem logStatement_eq (w : World) (lg : Logger) (l : LogLevel)
    (file : Option String) (line : Int) (func : Option String) (vals : List Value) :
    logStatement w lg l file line func vals
      = writerStatement w lg.out_ (lg.enabled_ && compareLevels lg.level_ l)
          lg.colorsEnabled_ l file line func vals := rfl

/-! ## Level comparison -/

/-- C1: for every pair of severities `(min, cur)` among Debug, Trace, Info, Warn,
Error, Fatal, `compareLevels min cur` is true exactly when the ordinal position
of `cur` in the enumeration is at least the ordinal position of `min`. -/
theorem compareLevels_iff_ordinal :
    ∀ min ∈ severities, ∀ cur ∈ severities,
      (compareLevels min cur = true ↔ severities.indexOf cur ≥ severities.indexOf min) := by
  decide

theorem compareLevels_iff_ordinal_witness :
    Warn ∈ severities ∧ Trace ∈ severities ∧
      (compareLevels Warn Trace = true ↔ severities.indexOf Trace ≥ severities.indexOf Warn) :=
  ⟨by decide, by decide, compareLevels_iff_ordinal Warn (by decide) Trace (by decide)⟩

/-! ## Gating of whole statements -/

/-- C2: when the logger's enabled flag is false, then for every severity, minimum
level, location and streamed values, the line writer's construction, each of its
streaming calls and its finalization write nothing, and the whole log statement
leaves every sink exactly as it was. -/
theorem disabled_statement_writes_nothing (w : World) (lg : Logger)
    (h : lg.enabled_ = false) (l : LogLevel) (file : Option String) (line : Int)
    (func : Option String) (vals : List Value) :
    (lg.streamFor w l file line func).1 = w ∧
    (∀ w1 v, ((lg.streamFor w l file line func).2.shl w1 v).1 = w1) ∧
    (∀ w1, (lg.streamFor w l file line func).2.dtor w1 = w1) ∧
    logStatement w lg l file line func vals = w := by
  refine ⟨?_, ?_, ?_, ?_⟩
  · simp [Logger.streamFor, h, StreamOut.ctor_unarmed]
  · intro w1 v
    simp [Logger.streamFor, h, StreamOut.ctor_unarmed, StreamOut.shl]
  · intro w1
    simp [Logger.streamFor, h, StreamOut.ctor_unarmed, StreamOut.dtor]
  · rw [logStatement_eq, h, Bool.false_and, writerStatement_unarmed]

theorem disabled_statement_writes_nothing_witness :
    ((Logger.ctor 2 Debug true).disable).enabled_ = false ∧
    logStatement (World.empty.write 2 "kept") ((Logger.ctor 2 Debug true).disable) Fatal
      (some "basic.cc") 44 (some "main") [Value.str "shouldn't print"]
      = World.empty.write 2 "kept" :=
  ⟨rfl, (disabled_statement_writes_nothing (World.empty.write 2 "kept")
    ((Logger.ctor 2 Debug true).disable) rfl Fatal (some "basic.cc") 44 (some "main")
    [Value.str "shouldn't print"]).2.2.2⟩

/-- C3: for an enabled logger with minimum level `L` and a severity `s`: when `s`
is below `L` the whole log statement leaves every sink unchanged; when `s` is at
or above `L` it appends to the logger's sink exactly one line head, then the
renderings of the streamed values in order, then one line terminator, and writes
nothing else. -/
theorem enabled_statement_gating (w : World) (lg : Logger) (h : lg.enabled_ = true)
    (l : LogLevel) (file : Option String) (line : Int) (func : Option String)
    (vals : List Value) :
    (l.val < lg.level_.val → logStatement w lg l file line func vals = w) ∧
    (lg.level_.val ≤ l.val →
      logStatement w lg l file line func vals
        = w.write lg.out_
            (headText lg.colorsEnabled_ l file line func ++ renderAll vals ++ "\n")) := by
  constructor
  · intro hlt
    have hc : compareLevels lg.level_ l = false := by
      simp [compareLevels, hlt]
    rw [logStatement_eq, h, hc, Bool.and_false, writerStatement_unarmed]
  · intro hle
    have hc : compareLevels lg.level_ l = true := by
      simp [compareLevels, hle]
    rw [logStatement_eq, h, hc, Bool.and_true, writerStatement_armed]

theorem enabled_statement_gating_witness :
    ((Logger.ctor 2 Debug true).setMinLevel Warn).enabled_ = true ∧
    logStatement World.empty ((Logger.ctor 2 Debug true).setMinLevel Warn) Trace
      (some "basic.cc") 50 (some "main") [Value.str "shouldn't print"] = World.empty ∧
    (logStatement World.empty ((Logger.ctor 2 Debug true).setMinLevel Warn) Warn
      (some "basic.cc") 52 (some "main") [Value.str "bad mojo"]).text 2
      = "[\x1b[33;1mWarn \x1b[0m|basic.cc:52(main)]: bad mojo\n" :=
  ⟨rfl,
   (enabled_statement_gating World.empty ((Logger.ctor 2 Debug true).setMinLevel Warn) rfl
      Trace (some "basic.cc") 50 (some "main") [Value.str "shouldn't print"]).1 (by decide),
   by
    rw [(enabled_statement_gating World.empty ((Logger.ctor 2 Debug true).setMinLevel Warn) rfl
      Warn (some "basic.cc") 52 (some "main") [Value.str "bad mojo"]).2 (by decide)]
    decide⟩

/-! ## The line an armed writer produces -/

/-- C4: a line writer created with `shouldWrite` true writes at construction the
head `[` + rendered level + (file given: `|` + file + (line at least 0: `:` +
decimal line)) + (function given: `(` + function + `)`) + `]: `, and its complete
statement appends exactly that head, the renderings of the streamed values in
order and the line terminator; streaming "foo ", 3, ", " and the example's
custom value, which renders as "Custom{43, 200}", gives one line that ends in
"foo 3, Custom{43, 200}". -/
theorem armed_writer_line (w : World) (o : StreamId) (color : Bool) (l : LogLevel)
    (file : Option String) (line : Int) (func : Option String) (vals : List Value) :
    (StreamOut.ctor w o true color l file line func).1
      = w.write o ("[" ++ renderLevel l color ++ fileSegment file line
          ++ funcSegment func ++ "]: ") ∧
    writerStatement w o true color l file line func vals
      = w.write o ("[" ++ renderLevel l color ++ fileSegment file line
          ++ funcSegment func ++ "]: " ++ renderAll vals ++ "\n") ∧
    (Value.custom ⟨43, 200⟩).render = "Custom\x7b43, 200\x7d" ∧
    writerStatement w o true color l file line func
        [Value.str "foo ", Value.int 3, Value.str ", ", Value.custom ⟨43, 200⟩]
      = w.write o (headText color l file line func
          ++ "foo 3, Custom\x7b43, 200\x7d" ++ "\n") := by
  refine ⟨?_, ?_, by decide, ?_⟩
  · rw [StreamOut.ctor_armed]; rfl
  · rw [writerStatement_armed]; rfl
  · rw [writerStatement_armed]
    have h : renderAll [Value.str "foo ", Value.int 3, Value.str ", ", Value.custom ⟨43, 200⟩]
        = "foo 3, Custom\x7b43, 200\x7d" := by decide
    rw [h]

/-! ## The write decision is frozen in the writer -/

/-- C5: after a line writer has been obtained from a logger by `streamFor`, any
interleaving of streaming calls with `setMinLevel`, `setEnabled`, `enable` and
`disable` on the logger leaves the writer as it was obtained, and the sinks after
the writer's finalization are exactly those of the same statement with the same
streamed values and the logger never changed. -/
theorem writer_decision_frozen (w : World) (lg : Logger) (l : LogLevel)
    (file : Option String) (line : Int) (func : Option String) (acts : List Action) :
    (runActions (lg.streamFor w l file line func).1 lg
        (lg.streamFor w l file line func).2 acts).2.2
      = (lg.streamFor w l file line func).2 ∧
    (runActions (lg.streamFor w l file line func).1 lg
        (lg.streamFor w l file line func).2 acts).2.2.dtor
      (runActions (lg.streamFor w l file line func).1 lg
        (lg.streamFor w l file line func).2 acts).1
      = logStatement w lg l file line func (acts.filterMap Action.streamed) := by
  have key : ∀ (acts : List Action) (w1 : World) (lg1 : Logger) (s : StreamOut),
      (runActions w1 lg1 s acts).2.2 = s ∧
      (runActions w1 lg1 s acts).1 = (streamAll w1 s (acts.filterMap Action.streamed)).1 := by
    intro acts
    induction acts with
    | nil => intro w1 lg1 s; exact ⟨rfl, rfl⟩
    | cons a as ih =>
      intro w1 lg1 s
      cases a with
      | stream v =>
        have hs : (s.shl w1 v).2 = s := by
          unfold StreamOut.shl; split <;> rfl
        simp [runActions, Action.run, Action.streamed, streamAll, hs, ih]
      | setMinLevel t => simp [runActions, Action.run, Action.streamed, ih]
      | setEnabled v => simp [runActions, Action.run, Action.streamed, ih]
      | enable => simp [runActions, Action.run, Action.streamed, ih]
      | disable => simp [runActions, Action.run, Action.streamed, ih]
  obtain ⟨h1, h2⟩ := key acts (lg.streamFor w l file line func).1 lg
    (lg.streamFor w l file line func).2
  refine ⟨h1, ?_⟩
  rw [h1, h2]
  have h3 : ∀ (vals : List Value) (w1 : World) (s : StreamOut),
      (streamAll w1 s vals).2 = s := by
    intro vals
    induction vals with
    | nil => intro w1 s; rfl
    | cons v vs ih =>
      intro w1 s
      have hs : (s.shl w1 v).2 = s := by
        unfold StreamOut.shl; split <;> rfl
      simp only [streamAll, ih, hs]
  simp only [logStatement, h3]

/-! ## Rendering of levels -/

/-- C6: for each of the six severities, the text `writeLevel` writes with color
disabled contains no escape byte 0x1B, and the text it writes with color enabled
is an SGR start escape sequence, then a non-empty label free of escape bytes,
then the reset sequence `ESC[0m`. -/
theorem writeLevel_escapes :
    ∀ lvl ∈ severities, ∀ (w : World) (o : StreamId),
      (writeLevel w o lvl false).1 = w.write o (renderLevel lvl false) ∧
      ESC ∉ (renderLevel lvl false).data ∧
      ∃ start label : String,
        isStartEscape start = true ∧ label ≠ "" ∧ ESC ∉ label.data ∧
        renderLevel lvl true = start ++ label ++ resetEscape ∧
        (writeLevel w o lvl true).1 = w.write o (start ++ label ++ resetEscape) := by
  intro lvl h w o
  simp only [severities, List.mem_cons, List.mem_singleton, List.not_mem_nil, or_false] at h
  rcases h with rfl | rfl | rfl | rfl | rfl | rfl
  · exact ⟨by rw [writeLevel_eq], by decide, "\x1b[30m", "Debug ", by decide, by decide,
      by decide, rfl, by rw [writeLevel_eq]; rfl⟩
  · exact ⟨by rw [writeLevel_eq], by decide, "\x1b[30;1m", "Trace ", by decide, by decide,
      by decide, rfl, by rw [writeLevel_eq]; rfl⟩
  · exact ⟨by rw [writeLevel_eq], by decide, "\x1b[33m", "Info ", by decide, by decide,
      by decide, rfl, by rw [writeLevel_eq]; rfl⟩
  · exact ⟨by rw [writeLevel_eq], by decide, "\x1b[33;1m", "Warn ", by decide, by decide,
      by decide, rfl, by rw [writeLevel_eq]; rfl⟩
  · exact ⟨by rw [writeLevel_eq], by decide, "\x1b[31m", "Error ", by decide, by decide,
      by decide, rfl, by rw [writeLevel_eq]; rfl⟩
  · exact ⟨by rw [writeLevel_eq], by decide, "\x1b[31;1m", "Fatal ", by decide, by decide,
      by decide, rfl, by rw [writeLevel_eq]; rfl⟩

theorem writeLevel_escapes_witness :
    Warn ∈ severities ∧
    ESC ∉ (renderLevel Warn false).data ∧
    ∃ start label : String,
      isStartEscape start = true ∧ label ≠ "" ∧ ESC ∉ label.data ∧
      renderLevel Warn true = start ++ label ++ resetEscape ∧
      (writeLevel World.empty 0 Warn true).1
        = World.empty.write 0 (start ++ label ++ resetEscape) :=
  ⟨by decide, (writeLevel_escapes Warn (by decide) World.empty 0).2⟩

/-- C7: with color disabled `writeLevel` writes exactly "DEBUG", "TRACE", "INFO ",
"WARN ", "ERROR", "FATAL" for Debug, Trace, Info, Warn, Error, Fatal, each label
is 5 characters wide, and `writeLevel` returns the sink it was given (for every
level and either color flag). -/
theorem writeLevel_plain_labels (w : World) (o : StreamId) :
    writeLevel w o Debug false = (w.write o "DEBUG", o) ∧
    writeLevel w o Trace false = (w.write o "TRACE", o) ∧
    writeLevel w o Info false = (w.write o "INFO ", o) ∧
    writeLevel w o Warn false = (w.write o "WARN ", o) ∧
    writeLevel w o Error false = (w.write o "ERROR", o) ∧
    writeLevel w o Fatal false = (w.write o "FATAL", o) ∧
    severities.map (fun l => (renderLevel l false).length) = [5, 5, 5, 5, 5, 5] ∧
    ∀ (lvl : LogLevel) (color : Bool), (writeLevel w o lvl color).2 = o := by
  refine ⟨rfl, rfl, rfl, rfl, rfl, rfl, by decide, ?_⟩
  intro lvl color
  rw [writeLevel_eq]

/-- C8, as stated, fails at Debug: the text written with color enabled is not a
start sequence followed by the label written with color disabled ("DEBUG") and
the reset sequence, whatever the start sequence; and removing the escape
sequences from it gives "Debug ", not "DEBUG". -/
theorem colored_label_not_plain_label :
    (¬ ∃ start : String,
        renderLevel Debug true = start ++ renderLevel Debug false ++ resetEscape) ∧
    stripAnsi (renderLevel Debug true) = "Debug " ∧
    renderLevel Debug false = "DEBUG" ∧
    stripAnsi (renderLevel Debug true) ≠ renderLevel Debug false := by
  refine ⟨?_, by decide, by decide, by decide⟩
  rintro ⟨start, h⟩
  have h2 : (renderLevel Debug false ++ resetEscape).data <:+ (renderLevel Debug true).data := by
    rw [h]; simp [String.append_assoc]
  revert h2
  decide

/-- C8, amended: for each of the six severities, the text `writeLevel` writes with
color enabled is a start escape sequence, then the level's name in mixed case
followed by one blank ("Debug ", "Trace ", "Info ", "Warn ", "Error ", "Fatal "),
then the reset sequence; removing the escape sequences leaves that mixed-case
label, which agrees with the label written with color disabled once both are
put in upper case and stripped of trailing blanks. -/
theorem colored_label_wrapped :
    ∀ lvl ∈ severities,
      (∃ start : String, isStartEscape start = true ∧
        renderLevel lvl true = start ++ stripAnsi (renderLevel lvl true) ++ resetEscape) ∧
      stripAnsi (renderLevel lvl true)
        ∈ ["Debug ", "Trace ", "Info ", "Warn ", "Error ", "Fatal "] ∧
      foldLabel (stripAnsi (renderLevel lvl true)) = foldLabel (renderLevel lvl false) := by
  intro lvl h
  simp only [severities, List.mem_cons, List.mem_singleton, List.not_mem_nil, or_false] at h
  rcases h with rfl | rfl | rfl | rfl | rfl | rfl
  · exact ⟨⟨"\x1b[30m", by decide, by decide⟩, by decide, by decide⟩
  · exact ⟨⟨"\x1b[30;1m", by decide, by decide⟩, by decide, by decide⟩
  · exact ⟨⟨"\x1b[33m", by decide, by decide⟩, by decide, by decide⟩
  · exact ⟨⟨"\x1b[33;1m", by decide, by decide⟩, by decide, by decide⟩
  · exact ⟨⟨"\x1b[31m", by decide, by decide⟩, by decide, by decide⟩
  · exact ⟨⟨"\x1b[31;1m", by decide, by decide⟩, by decide, by decide⟩

theorem colored_label_wrapped_witness :
    Debug ∈ severities ∧
    (∃ start : String, isStartEscape start = true ∧
      renderLevel Debug true = start ++ stripAnsi (renderLevel Debug true) ++ resetEscape) ∧
    stripAnsi (renderLevel Debug true)
      ∈ ["Debug ", "Trace ", "Info ", "Warn ", "Error ", "Fatal "] ∧
    foldLabel (stripAnsi (renderLevel Debug true)) = foldLabel (renderLevel Debug false) :=
  ⟨by decide, colored_label_wrapped Debug (by decide)⟩

/-! ## Location segments of the line head -/

/-- C9: for every severity, color flag, line number and function argument, an
armed line writer given no file writes the same head as with the line not
provided (`-1`), namely `[` + level + function segment + `]: ` with neither file
nor line segment; given a file but no function it writes `[` + level + `|` + file
+ line segment + `]: `, which is the head written with a function less its
`(` + function + `)` segment, file and line segments kept. -/
theorem head_without_file_or_function (w : World) (o : StreamId) (color : Bool)
    (l : LogLevel) (line : Int) (func : Option String) (file fn : String) :
    (StreamOut.ctor w o true color l none line func).1
      = (StreamOut.ctor w o true color l none (-1) func).1 ∧
    (StreamOut.ctor w o true color l none line func).1
      = w.write o ("[" ++ renderLevel l color ++ funcSegment func ++ "]: ") ∧
    (StreamOut.ctor w o true color l (some file) line none).1
      = w.write o ("[" ++ renderLevel l color ++ "|" ++ file
          ++ (if line ≥ 0 then ":" ++ toString line else "") ++ "]: ") ∧
    (StreamOut.ctor w o true color l (some file) line (some fn)).1
      = w.write o ("[" ++ renderLevel l color ++ "|" ++ file
          ++ (if line ≥ 0 then ":" ++ toString line else "")
          ++ "(" ++ fn ++ ")" ++ "]: ") := by
  simp only [StreamOut.ctor_armed, headText, fileSegment, funcSegment]
  refine ⟨trivial, ?_, ?_, ?_⟩ <;> simp [String.append_assoc]

/-- C10: `streamFor` is total, and for an armed writer (logger enabled, severity
at or above the minimum) a negative line number given together with a file yields
the head `[` + level + `|` + file + function segment + `]: ` without a `:` line
segment, the same writer and sinks as with the line not provided (`-1`), and the
statement completes with its content and terminator; an absent file omits the
file segment (with the line part nested in it) and an absent function omits the
function segment, the statement completing likewise. -/
theorem negative_line_omitted (w : World) (lg : Logger) (he : lg.enabled_ = true)
    (l : LogLevel) (hl : lg.level_.val ≤ l.val) (file : String) (line : Int)
    (hneg : line < 0) (func : Option String) (vals : List Value)
    (file2 : Option String) (line2 : Int) :
    (lg.streamFor w l (some file) line func).1
      = w.write lg.out_ ("[" ++ renderLevel l lg.colorsEnabled_ ++ "|" ++ file
          ++ funcSegment func ++ "]: ") ∧
    lg.streamFor w l (some file) line func = lg.streamFor w l (some file) (-1) func ∧
    logStatement w lg l (some file) line func vals
      = w.write lg.out_ ("[" ++ renderLevel l lg.colorsEnabled_ ++ "|" ++ file
          ++ funcSegment func ++ "]: " ++ renderAll vals ++ "\n") ∧
    logStatement w lg l none line2 func vals
      = w.write lg.out_ ("[" ++ renderLevel l lg.colorsEnabled_
          ++ funcSegment func ++ "]: " ++ renderAll vals ++ "\n") ∧
    logStatement w lg l file2 line2 none vals
      = w.write lg.out_ ("[" ++ renderLevel l lg.colorsEnabled_
          ++ fileSegment file2 line2 ++ "]: " ++ renderAll vals ++ "\n") := by
  have hc : compareLevels lg.level_ l = true := by simp [compareLevels, hl]
  have hn : ¬ line ≥ 0 := by omega
  simp only [logStatement_eq, Logger.streamFor, he, hc, Bool.and_true,
    writerStatement_armed, StreamOut.ctor_armed, headText, fileSegment, funcSegment, hn,
    if_false]
  refine ⟨?_, ?_, ?_, ?_, ?_⟩ <;> simp [String.append_assoc]

theorem negative_line_omitted_witness :
    (Logger.ctor 2 Debug false).enabled_ = true ∧
    (Logger.ctor 2 Debug false).level_.val ≤ Info.val ∧
    (-7 : Int) < 0 ∧
    ((Logger.ctor 2 Debug false).streamFor World.empty Info (some "basic.cc") (-7)
        (some "main")).1.text 2 = "[INFO |basic.cc(main)]: " ∧
    (logStatement World.empty (Logger.ctor 2 Debug false) Info (some "basic.cc") (-7)
        (some "main") [Value.str "foo ", Value.int 3]).text 2
      = "[INFO |basic.cc(main)]: foo 3\n" ∧
    (logStatement World.empty (Logger.ctor 2 Debug false) Info none 34
        (some "main") [Value.str "foo ", Value.int 3]).text 2
      = "[INFO (main)]: foo 3\n" ∧
    (logStatement World.empty (Logger.ctor 2 Debug false) Info (some "basic.cc") 34
        none [Value.str "foo ", Value.int 3]).text 2
      = "[INFO |basic.cc:34]: foo 3\n" := by
  have h := negative_line_omitted World.empty (Logger.ctor 2 Debug false) rfl Info
    (by decide) "basic.cc" (-7) (by decide) (some "main") [Value.str "foo ", Value.int 3]
  have h1 := h none 34
  have h2 := h (some "basic.cc") 34
  refine ⟨rfl, by decide, by decide, ?_, ?_, ?_, ?_⟩
  · rw [h1.1]; decide
  · rw [h1.2.2.1]; decide
  · rw [h1.2.2.2.1]; decide
  · rw [h2.2.2.2.2]; decide

/-! ## Configuration of a logger -/

/-- C11: for every logger state, sink `o` and boolean `c`, after `setStream(o, c)`
`getStream()` returns `o` and `colorsEnabled()` returns `c` whatever the flag was
before; with the color argument omitted the flag becomes false even when colors
were enabled; the minimum level and the enabled flag are unchanged. -/
theorem setStream_effect (lg : Logger) (o : StreamId) (c : Bool) :
    (lg.setStream o c).getStream = o ∧
    (lg.setStream o c).colorsEnabled = c ∧
    (lg.setStreamDefault o).getStream = o ∧
    (lg.setStreamDefault o).colorsEnabled = false ∧
    (lg.enableColor.setStreamDefault o).colorsEnabled = false ∧
    (lg.setStream o c).getMinLevel = lg.getMinLevel ∧
    (lg.setStream o c).isEnabled = lg.isEnabled ∧
    (lg.setStreamDefault o).getMinLevel = lg.getMinLevel ∧
    (lg.setStreamDefault o).isEnabled = lg.isEnabled :=
  ⟨rfl, rfl, rfl, rfl, rfl, rfl, rfl, rfl, rfl⟩

/-! ## The singleton -/

theorem globalLoggerPtr_addr (m : Memory) : (globalLoggerPtr m).2 = globalAddr := by
  unfold globalLoggerPtr; split <;> rfl

theorem globalLoggerPtr_initialized (m : Memory) :
    (globalLoggerPtr m).1.initialized = true := by
  unfold globalLoggerPtr; split <;> simp_all

theorem globalLoggerPtr_of_initialized (m : Memory) (h : m.initialized = true) :
    globalLoggerPtr m = (m, globalAddr) := by
  simp [globalLoggerPtr, h]

theorem globalLoggerPtr_other (m : Memory) (a : LoggerAddr) (h : a ≠ globalAddr) :
    (globalLoggerPtr m).1.loggers a = m.loggers a := by
  unfold globalLoggerPtr; split <;> simp [h]

/-- C12: when the singleton has not been constructed yet, `Logger::get()` yields
a logger with minimum level Debug, enabled, colors on and destination
`std::cerr`, so a `LOGGO_LOG` statement at every level is written to `std::cerr`;
for every state a further call of `get()` returns the same instance without
constructing it again, and a change made through the reference of one call is
what the next call's reference reads. -/
theorem singleton_defaults (m : Memory) (h : m.initialized = false) :
    (Logger.get m).1.loggers (Logger.get m).2
      = { level_ := Debug, enabled_ := true, colorsEnabled_ := true, out_ := cerr } ∧
    (∀ (w : World) (l : LogLevel) (file : Option String) (line : Int)
        (func : Option String) (vals : List Value),
      (loggoLog w m l file line func vals).1
        = w.write cerr (headText true l file line func ++ renderAll vals ++ "\n")) ∧
    (∀ m0 : Memory, Logger.get (Logger.get m0).1 = ((Logger.get m0).1, (Logger.get m0).2)) ∧
    (∀ (m0 : Memory) (f : Logger → Logger),
      (Logger.get ((Logger.get m0).1.call (Logger.get m0).2 f)).2 = (Logger.get m0).2 ∧
      (Logger.get ((Logger.get m0).1.call (Logger.get m0).2 f)).1.loggers
          (Logger.get ((Logger.get m0).1.call (Logger.get m0).2 f)).2
        = f ((Logger.get m0).1.loggers (Logger.get m0).2)) := by
  have hd : (Logger.get m).1.loggers (Logger.get m).2
      = { level_ := Debug, enabled_ := true, colorsEnabled_ := true, out_ := cerr } := by
    simp [Logger.get, globalLoggerPtr, h, Logger.ctor]
  refine ⟨hd, ?_, ?_, ?_⟩
  · intro w l file line func vals
    simp only [loggoLog, hd, logStatement_eq]
    have hc : compareLevels Debug l = true := by simp [compareLevels, Debug]
    rw [hc, Bool.and_true, writerStatement_armed]
  · intro m0
    simp only [Logger.get]
    rw [globalLoggerPtr_of_initialized _ (globalLoggerPtr_initialized m0)]
    rw [globalLoggerPtr_addr]
  · intro m0 f
    simp only [Logger.get]
    have hi : ((globalLoggerPtr m0).1.call (globalLoggerPtr m0).2 f).initialized = true := by
      simp [Memory.call, Memory.store, globalLoggerPtr_initialized]
    rw [globalLoggerPtr_of_initialized _ hi]
    simp [Memory.call, Memory.store, globalLoggerPtr_addr]

theorem singleton_defaults_witness :
    (Memory.mk false (fun _ => Logger.ctor 7 Fatal false)).initialized = false ∧
    (Logger.get (Memory.mk false (fun _ => Logger.ctor 7 Fatal false))).1.loggers
        (Logger.get (Memory.mk false (fun _ => Logger.ctor 7 Fatal false))).2
      = { level_ := Debug, enabled_ := true, colorsEnabled_ := true, out_ := cerr } ∧
    (loggoLog World.empty (Memory.mk false (fun _ => Logger.ctor 7 Fatal false)) Debug
        (some "basic.cc") 28 (some "foo") [Value.str "REACHED: ", Value.str "void foo()"]).1.text
        cerr
      = "[\x1b[30mDebug \x1b[0m|basic.cc:28(foo)]: REACHED: void foo()\n" := by
  have h := singleton_defaults (Memory.mk false (fun _ => Logger.ctor 7 Fatal false)) rfl
  refine ⟨rfl, h.1, ?_⟩
  rw [h.2.1]
  decide

/-- C13: for every singleton state and every supplied logger `g` (a caller's
object, or the singleton itself once constructed), after `setGlobalLogger(g)` the
singleton's minimum level, enabled flag, color flag and destination equal those
of `g`, `get()` still returns the same instance, and `g` is unchanged; when `g`
is an object other than the singleton, a later change of `g` leaves the
singleton as it was set. -/
theorem setGlobalLogger_copies (m : Memory) (a : LoggerAddr)
    (h : a ≠ globalAddr ∨ m.initialized = true) :
    ((Logger.setGlobalLogger m a).loggers globalAddr).getMinLevel = (m.loggers a).getMinLevel ∧
    ((Logger.setGlobalLogger m a).loggers globalAddr).isEnabled = (m.loggers a).isEnabled ∧
    ((Logger.setGlobalLogger m a).loggers globalAddr).colorsEnabled
      = (m.loggers a).colorsEnabled ∧
    ((Logger.setGlobalLogger m a).loggers globalAddr).getStream = (m.loggers a).getStream ∧
    Logger.get (Logger.setGlobalLogger m a) = (Logger.setGlobalLogger m a, globalAddr) ∧
    (Logger.get (Logger.setGlobalLogger m a)).2 = (Logger.get m).2 ∧
    (Logger.setGlobalLogger m a).loggers a = m.loggers a ∧
    (a ≠ globalAddr → ∀ f : Logger → Logger,
      ((Logger.setGlobalLogger m a).call a f).loggers globalAddr = m.loggers a ∧
      ((Logger.setGlobalLogger m a).call a f).loggers a = f (m.loggers a)) := by
  have hsrc : (globalLoggerPtr m).1.loggers a = m.loggers a := by
    rcases h with h | h
    · exact globalLoggerPtr_other m a h
    · rw [globalLoggerPtr_of_initialized m h]
  have hg : (Logger.setGlobalLogger m a).loggers globalAddr = m.loggers a := by
    simp [Logger.setGlobalLogger, Memory.store, globalLoggerPtr_addr, hsrc]
  have hi : (Logger.setGlobalLogger m a).initialized = true := by
    simp [Logger.setGlobalLogger, Memory.store, globalLoggerPtr_initialized]
  have ha : (Logger.setGlobalLogger m a).loggers a = m.loggers a := by
    simp only [Logger.setGlobalLogger, Memory.store, globalLoggerPtr_addr, hsrc]
    split <;> rfl
  refine ⟨by rw [hg], by rw [hg], by rw [hg], by rw [hg], ?_, ?_, ha, ?_⟩
  · simp only [Logger.get]
    exact globalLoggerPtr_of_initialized _ hi
  · simp only [Logger.get, globalLoggerPtr_addr]
  · intro hne f
    constructor
    · have hne2 : globalAddr ≠ a := fun e => hne e.symm
      simp only [Memory.call, Memory.store, if_neg hne2]
      exact hg
    · simp [Memory.call, Memory.store, ha]

theorem setGlobalLogger_copies_witness :
    ((5 : LoggerAddr) ≠ globalAddr ∨
      (Memory.mk false (fun _ => Logger.ctor 7 Error false)).initialized = true) ∧
    (Logger.setGlobalLogger (Memory.mk false (fun _ => Logger.ctor 7 Error false)) 5).loggers
        globalAddr
      = Logger.ctor 7 Error false ∧
    ((Logger.setGlobalLogger (Memory.mk false (fun _ => Logger.ctor 7 Error false)) 5).call 5
        Logger.disable).loggers globalAddr
      = Logger.ctor 7 Error false := by
  have h := setGlobalLogger_copies (Memory.mk false (fun _ => Logger.ctor 7 Error false)) 5
    (Or.inl (by decide))
  exact ⟨Or.inl (by decide), by decide, (h.2.2.2.2.2.2.2 (by decide) Logger.disable).1⟩

/-! ## Disabling and enabling -/

theorem World.write_ne (w : World) (o : StreamId) (t : String) (h : t.length ≠ 0) :
    w.write o t ≠ w := by
  intro e
  have h2 := congrArg (fun x => (x.text o).length) e
  simp [World.write] at h2
  exact h h2

/-- C14: for every logger state, after `disable()` a statement at Fatal and at
every other severity writes nothing; after a following `enable()`, `isEnabled()`
is true, the minimum level, color flag and destination are those from before the
`disable()`, and a statement at severity `s` is written exactly when
`compareLevels(minimum level, s)` holds, as one full line on the destination. -/
theorem disable_then_enable (w : World) (lg : Logger) (l : LogLevel)
    (file : Option String) (line : Int) (func : Option String) (vals : List Value) :
    logStatement w lg.disable Fatal file line func vals = w ∧
    logStatement w lg.disable l file line func vals = w ∧
    lg.disable.enable.isEnabled = true ∧
    lg.disable.enable.getMinLevel = lg.getMinLevel ∧
    lg.disable.enable.colorsEnabled = lg.colorsEnabled ∧
    lg.disable.enable.getStream = lg.getStream ∧
    (logStatement w lg.disable.enable l file line func vals ≠ w
      ↔ compareLevels lg.getMinLevel l = true) ∧
    (compareLevels lg.getMinLevel l = true →
      logStatement w lg.disable.enable l file line func vals
        = w.write lg.getStream
            (headText lg.colorsEnabled l file line func ++ renderAll vals ++ "\n")) := by
  have hw : compareLevels lg.getMinLevel l = true →
      logStatement w lg.disable.enable l file line func vals
        = w.write lg.getStream
            (headText lg.colorsEnabled l file line func ++ renderAll vals ++ "\n") := by
    intro hc
    have hc2 : compareLevels lg.level_ l = true := hc
    simp only [logStatement_eq, Logger.disable, Logger.enable, Logger.setEnabled, hc2,
      Bool.and_true, writerStatement_armed, Logger.getStream, Logger.colorsEnabled]
  refine ⟨?_, ?_, rfl, rfl, rfl, rfl, ?_, hw⟩
  · simp [logStatement_eq, Logger.disable, Logger.setEnabled, writerStatement_unarmed]
  · simp [logStatement_eq, Logger.disable, Logger.setEnabled, writerStatement_unarmed]
  · constructor
    · intro hne
      by_contra hc
      have hc2 : compareLevels lg.level_ l = false := by
        simpa [Logger.getMinLevel] using hc
      apply hne
      simp [logStatement_eq, Logger.disable, Logger.enable, Logger.setEnabled, hc2,
        writerStatement_unarmed]
    · intro hc
      rw [hw hc]
      apply World.write_ne
      have h1 : ("\n" : String).length = 1 := by decide
      rw [String.length_append, h1]
      omega

theorem disable_then_enable_witness :
    compareLevels (Logger.ctor cerr Debug false).getMinLevel Warn = true ∧
    logStatement World.empty (Logger.ctor cerr Debug false).disable Fatal
      (some "basic.cc") 44 (some "main") [Value.str "shouldn't print"] = World.empty ∧
    (logStatement World.empty (Logger.ctor cerr Debug false).disable.enable Warn
      (some "basic.cc") 52 (some "main") [Value.str "bad mojo"]).text cerr
      = "[WARN |basic.cc:52(main)]: bad mojo\n" := by
  refine ⟨by decide, ?_, ?_⟩
  · exact (disable_then_enable World.empty (Logger.ctor cerr Debug false) Warn
      (some "basic.cc") 44 (some "main") [Value.str "shouldn't print"]).1
  · rw [(disable_then_enable World.empty (Logger.ctor cerr Debug false) Warn
      (some "basic.cc") 52 (some "main") [Value.str "bad mojo"]).2.2.2.2.2.2.2 (by decide)]
    decide

/-! ## Levels outside the enumeration, and the order of levels -/

/-- C15: for every level value whose ordinal is greater than Fatal's, and for
either value of the color flag, `writeLevel` writes exactly "?????" (and returns
the sink it was given). -/
theorem writeLevel_unknown (lvl : LogLevel) (h : lvl.val > Fatal.val) (color : Bool)
    (w : World) (o : StreamId) :
    writeLevel w o lvl color = (w.write o "?????", o) ∧
    renderLevel lvl color = "?????" := by
  rcases lvl with ⟨n⟩
  have h6 : 6 ≤ n := h
  obtain ⟨k, rfl⟩ : ∃ k, n = k + 6 := ⟨n - 6, by omega⟩
  cases color <;> exact ⟨rfl, rfl⟩

theorem writeLevel_unknown_witness :
    (LogLevel.mk 4294967295).val > Fatal.val ∧
    writeLevel World.empty 0 (LogLevel.mk 4294967295) true
      = (World.empty.write 0 "?????", 0) ∧
    renderLevel (LogLevel.mk 4294967295) true = "?????" :=
  ⟨by decide, writeLevel_unknown (LogLevel.mk 4294967295) (by decide) true World.empty 0⟩

/-- C16: `compareLevels` is a total order on level values, in particular on the
six severities: it is reflexive, transitive, antisymmetric and total, and in the
sequence Debug, Trace, Info, Warn, Error, Fatal every severity is strictly below
every later one. -/
theorem compareLevels_total_order :
    (∀ a : LogLevel, compareLevels a a = true) ∧
    (∀ a b c : LogLevel, compareLevels a b = true → compareLevels b c = true →
      compareLevels a c = true) ∧
    (∀ a b : LogLevel, compareLevels a b = true → compareLevels b a = true → a = b) ∧
    (∀ a b : LogLevel, compareLevels a b = true ∨ compareLevels b a = true) ∧
    severities.Pairwise (fun a b => compareLevels a b = true ∧ compareLevels b a = false) ∧
    severities.Nodup := by
  refine ⟨?_, ?_, ?_, ?_, by decide, by decide⟩
  · intro a
    simp [compareLevels]
  · intro a b c hab hbc
    simp only [compareLevels, decide_eq_true_eq] at *
    omega
  · intro a b hab hba
    simp only [compareLevels, decide_eq_true_eq] at *
    rcases a with ⟨x⟩
    rcases b with ⟨y⟩
    simp only [LogLevel.mk.injEq]
    simp only at hab hba
    omega
  · intro a b
    simp only [compareLevels, decide_eq_true_eq]
    omega

theorem compareLevels_total_order_witness :
    compareLevels Debug Info = true ∧ compareLevels Info Fatal = true ∧
    compareLevels Debug Fatal = true :=
  ⟨by decide, by decide,
    compareLevels_total_order.2.1 Debug Info Fatal (by decide) (by decide)⟩

/-! ## Colors per level -/

/-- C17: with color enabled the start escape written by `writeLevel` is fixed per
level: `ESC[30m` for Debug, `ESC[30;1m` for Trace, `ESC[33m` for Info,
`ESC[33;1m` for Warn, `ESC[31m` for Error, `ESC[31;1m` for Fatal; the six are
pairwise distinct, and for each level the text is that start escape, the label,
and the reset `ESC[0m`. -/
theorem start_escape_per_level :
    severities.map (fun l => startEscape (renderLevel l true))
      = ["\x1b[30m", "\x1b[30;1m", "\x1b[33m", "\x1b[33;1m", "\x1b[31m", "\x1b[31;1m"] ∧
    (severities.map (fun l => startEscape (renderLevel l true))).Nodup ∧
    severities.all (fun l =>
      decide (renderLevel l true
        = startEscape (renderLevel l true) ++ stripAnsi (renderLevel l true) ++ resetEscape)
      && isStartEscape (startEscape (renderLevel l true))
      && decide (ESC ∉ (stripAnsi (renderLevel l true)).data)
      && decide (stripAnsi (renderLevel l true) ≠ "")) = true ∧
    (∀ (w : World) (o : StreamId) (l : LogLevel),
      (writeLevel w o l true).1 = w.write o (renderLevel l true)) := by
  refine ⟨by decide, by decide, by decide, ?_⟩
  intro w o l
  rw [writeLevel_eq]

/-! ## The documented default of the singleton -/

/-- C18: the doc comment of `Logger::get` announces minimum level Warn when
NDEBUG is defined, but `globalLoggerPtr` constructs the singleton with Debug
whatever the build: on first use the destination is `std::cerr`, the minimum
level is Debug and not the documented Warn, and an Info statement is written. -/
theorem singleton_level_ignores_ndebug :
    ((Logger.get (Memory.mk false (fun _ => Logger.ctor 7 Fatal false))).1.loggers
        (Logger.get (Memory.mk false (fun _ => Logger.ctor 7 Fatal false))).2).getStream
      = cerr ∧
    ((Logger.get (Memory.mk false (fun _ => Logger.ctor 7 Fatal false))).1.loggers
        (Logger.get (Memory.mk false (fun _ => Logger.ctor 7 Fatal false))).2).getMinLevel
      = Debug ∧
    documentedDefaultLevel true = Warn ∧
    ((Logger.get (Memory.mk false (fun _ => Logger.ctor 7 Fatal false))).1.loggers
        (Logger.get (Memory.mk false (fun _ => Logger.ctor 7 Fatal false))).2).getMinLevel
      ≠ documentedDefaultLevel true ∧
    (loggoLog World.empty (Memory.mk false (fun _ => Logger.ctor 7 Fatal false)) Info
        (some "basic.cc") 34 (some "main") [Value.str "foo ", Value.int 3]).1.text cerr
      = "[\x1b[33mInfo \x1b[0m|basic.cc:34(main)]: foo 3\n" := by
  refine ⟨by decide, by decide, by decide, by decide, by decide⟩

/-! ## Construction of a logger -/

/-- C19: a logger constructed with `Logger(o, level, useColor)` has minimum level
`level`, destination `o`, color flag `useColor` and is enabled; with the optional
arguments omitted it has minimum level Warn and colors off, so a fresh
`Logger(o)` writes statements at Warn, Error and Fatal as full lines on `o` and
writes nothing for Debug, Trace and Info. -/
theorem logger_ctor_defaults (o : StreamId) (level : LogLevel) (useColor : Bool)
    (w : World) (file : Option String) (line : Int) (func : Option String)
    (vals : List Value) :
    (Logger.ctor o level useColor).getMinLevel = level ∧
    (Logger.ctor o level useColor).getStream = o ∧
    (Logger.ctor o level useColor).colorsEnabled = useColor ∧
    (Logger.ctor o level useColor).isEnabled = true ∧
    (Logger.ctorDefault o).getMinLevel = Warn ∧
    (Logger.ctorDefault o).colorsEnabled = false ∧
    (Logger.ctorDefault o).getStream = o ∧
    (Logger.ctorDefault o).isEnabled = true ∧
    logStatement w (Logger.ctorDefault o) Warn file line func vals
      = w.write o (headText false Warn file line func ++ renderAll vals ++ "\n") ∧
    logStatement w (Logger.ctorDefault o) Error file line func vals
      = w.write o (headText false Error file line func ++ renderAll vals ++ "\n") ∧
    logStatement w (Logger.ctorDefault o) Fatal file line func vals
      = w.write o (headText false Fatal file line func ++ renderAll vals ++ "\n") ∧
    logStatement w (Logger.ctorDefault o) Debug file line func vals = w ∧
    logStatement w (Logger.ctorDefault o) Trace file line func vals = w ∧
    logStatement w (Logger.ctorDefault o) Info file line func vals = w := by
  have ha : ∀ l : LogLevel, compareLevels Warn l = true →
      logStatement w (Logger.ctorDefault o) l file line func vals
        = w.write o (headText false l file line func ++ renderAll vals ++ "\n") := by
    intro l hc
    simp only [logStatement_eq, Logger.ctorDefault, Logger.ctor, hc, Bool.and_true,
      writerStatement_armed]
  have hu : ∀ l : LogLevel, compareLevels Warn l = false →
      logStatement w (Logger.ctorDefault o) l file line func vals = w := by
    intro l hc
    simp only [logStatement_eq, Logger.ctorDefault, Logger.ctor, hc, Bool.and_false,
      writerStatement_unarmed]
  exact ⟨rfl, rfl, rfl, rfl, rfl, rfl, rfl, rfl, ha Warn (by decide), ha Error (by decide),
    ha Fatal (by decide), hu Debug (by decide), hu Trace (by decide), hu Info (by decide)⟩

/-! ## A statement leaves the logger as it was -/

/-- C20: for every logger state, severity, location and streamed values, after
`streamFor`, the streaming calls and the finalization, the logger is exactly
what it was before (same minimum level, enabled flag, color flag and
destination), whether or not the statement was written; a `LOGGO_LOG` statement
on the constructed singleton likewise leaves every logger object unchanged. -/
theorem statement_preserves_logger (w : World) (lg : Logger) (l : LogLevel)
    (file : Option String) (line : Int) (func : Option String) (vals : List Value)
    (m : Memory) :
    (runActions (lg.streamFor w l file line func).1 lg
        (lg.streamFor w l file line func).2 (vals.map Action.stream)).2.1 = lg ∧
    (runActions (lg.streamFor w l file line func).1 lg
        (lg.streamFor w l file line func).2 (vals.map Action.stream)).2.2.dtor
      (runActions (lg.streamFor w l file line func).1 lg
        (lg.streamFor w l file line func).2 (vals.map Action.stream)).1
      = logStatement w lg l file line func vals ∧
    (loggoLog w (Logger.get m).1 l file line func vals).2 = (Logger.get m).1 := by
  have key : ∀ (vals : List Value) (w1 : World) (s : StreamOut),
      runActions w1 lg s (vals.map Action.stream)
        = ((streamAll w1 s vals).1, lg, (streamAll w1 s vals).2) := by
    intro vals
    induction vals with
    | nil => intro w1 s; rfl
    | cons v vs ih =>
      intro w1 s
      simp only [List.map_cons, runActions, Action.run, streamAll, ih]
  refine ⟨?_, ?_, ?_⟩
  · rw [key]
  · rw [key]; rfl
  · simp only [loggoLog, Logger.get]
    rw [globalLoggerPtr_of_initialized _ (globalLoggerPtr_initialized m)]

end loggo
